import Mathlib

/-!
Shallow embedding of the `whoop.py` client library (class `WhoopClient`),
covering the pagination helper `_make_paginated_request`, the request helper
`_make_request`, the authentication helpers `authenticate` / `is_authenticated`,
and the date-range utility `_format_dates`.

HTTP transport, JSON decoding and ISO-8601 parsing are external collaborators
of the library; they appear here at their interface boundary only: a server is
a finite script of page responses, and date arguments arrive already parsed
into the same (ordinal day, microsecond-of-day) representation Python's
`datetime` uses internally.
-/

namespace Whoop

/-- The `next_token` field of a page response body: the key may be absent from
the JSON object, or present holding `null`, or present holding a string. -/
inductive NextTokenField where
  | absent : NextTokenField
  | null : NextTokenField
  | str : String → NextTokenField
deriving DecidableEq

/-- A decoded pagination response body: `{records: [...], next_token: ...}`. -/
structure PageBody (α : Type) where
  records : List α
  next_token : NextTokenField
deriving DecidableEq

/-- One HTTP exchange as seen by `_make_request`: either a 4xx/5xx status
(on which `raise_for_status` raises) or a decoded page body. -/
inductive HttpResp (α : Type) where
  | err : Nat → HttpResp α
  | ok : PageBody α → HttpResp α
deriving DecidableEq

/-- Errors the request pipeline can raise: `requests.HTTPError` carrying the
status (from `raise_for_status`), or Python's `KeyError` (from subscripting a
missing `next_token` key). -/
inductive ReqError where
  | httpError : Nat → ReqError
  | keyError : ReqError
deriving DecidableEq

/-- `_make_request`: issue the exchange and `raise_for_status`, returning the
decoded JSON body on 2xx. -/
def make_request {α : Type} (resp : HttpResp α) : Except ReqError (PageBody α) :=
  match resp with
  | .err s => .error (.httpError s)
  | .ok b => .ok b

/-- Python `response["next_token"]`: raises `KeyError` when the key is absent,
otherwise yields the value (`none` for JSON null). -/
def tokenValue : NextTokenField → Except ReqError (Option String)
  | .absent => .error .keyError
  | .null => .ok none
  | .str s => .ok (some s)

/-- Python truthiness of the walrus `if next_token := ...`: `None` and the
empty string are falsy; a non-empty string is truthy and is the new cursor. -/
def cursorOf : Option String → Option String
  | none => none
  | some s => if s = "" then none else some s

/-- Outcome of running the pagination loop against a finite server script:
`done` returns the accumulated records (normal loop exit), `failed` propagates
a raised error, and `running` means the script was exhausted while the loop
still wanted a further page. Each outcome records the `nextToken` parameter
carried by every request issued, in order (`none` = no `nextToken` param). -/
inductive PagOutcome (α : Type) where
  | done : List α → List (Option String) → PagOutcome α
  | failed : ReqError → List (Option String) → PagOutcome α
  | running : List α → Option String → List (Option String) → PagOutcome α
deriving DecidableEq

/-- `_make_paginated_request`'s `while True` loop. `script` is the sequence of
server responses still to be served, `tok` the current `nextToken` parameter
(`none` before any cursor is set), `acc` the `response_data` accumulator and
`reqs` the trace of requests issued so far. Within one iteration the body is
appended to `acc` before `response["next_token"]` is read, but a raised error
propagates without returning `acc`, exactly as in the Python source. -/
def make_paginated_request {α : Type} :
    List (HttpResp α) → Option String → List α → List (Option String) → PagOutcome α
  | [], tok, acc, reqs => .running acc tok reqs
  | resp :: rest, tok, acc, reqs =>
    match make_request resp with
    | .error e => .failed e (reqs ++ [tok])
    | .ok body =>
      match tokenValue body.next_token with
      | .error e => .failed e (reqs ++ [tok])
      | .ok nt =>
        match cursorOf nt with
        | some s => make_paginated_request rest (some s) (acc ++ body.records) (reqs ++ [tok])
        | none => .done (acc ++ body.records) (reqs ++ [tok])

/-- Entry point of `_make_paginated_request`: empty accumulator, no
`nextToken` parameter. -/
def fetchAll {α : Type} (script : List (HttpResp α)) : PagOutcome α :=
  make_paginated_request script none [] []

/-- A page body on which the loop continues: `next_token` present and a
non-empty string. -/
def continues {α : Type} (b : PageBody α) : Bool :=
  match b.next_token with
  | .str s => decide (s ≠ "")
  | _ => false

/-- A page body on which the loop exits normally: `next_token` present but
`null` or the empty string. -/
def stopsLoop {α : Type} (b : PageBody α) : Bool :=
  match b.next_token with
  | .null => true
  | .str s => decide (s = "")
  | .absent => false

/-- The cursor a page body installs for the next request, if any. -/
def pageTok {α : Type} (b : PageBody α) : Option String :=
  match b.next_token with
  | .str s => if s = "" then none else some s
  | _ => none

/-- Concatenation of the record arrays of a list of page bodies, in order. -/
def allRecords {α : Type} : List (PageBody α) → List α
  | [] => []
  | b :: rest => b.records ++ allRecords rest

/-- The `nextToken` parameters of the successive requests issued while the
given pages are consumed, starting from cursor `tok`. -/
def traceFrom {α : Type} : Option String → List (PageBody α) → List (Option String)
  | _, [] => []
  | tok, b :: rest => tok :: traceFrom (pageTok b) rest

/-- The cursor in force after the given pages have been consumed. -/
def tokAfter {α : Type} : Option String → List (PageBody α) → Option String
  | tok, [] => tok
  | _, b :: rest => tokAfter (pageTok b) rest

/-- The `user` object embedded in a token response, reduced to its `id` field
after Python's `str(...)` conversion: `none` models a payload in which the
`user` object or its `id` key is missing (so `.get("user", \x7b\x7d).get("id", "")`
falls back to `""`). -/
structure TokenPayload where
  user_id : Option String
deriving DecidableEq

/-- The mutable state of a `WhoopClient`: the OAuth2 session's token (if any)
and the `user_id` attribute, initialised to `""` in `__init__`. -/
structure ClientState where
  token : Option TokenPayload
  user_id : String
deriving DecidableEq

/-- Outcome of the external `fetch_token` call against the authorization
endpoint: the endpoint either rejects the credentials (raising, so the session
keeps its previous token) or returns a decoded token payload. -/
inductive AuthResult where
  | failure : AuthResult
  | success : TokenPayload → AuthResult
deriving DecidableEq

/-- `str(self.session.token.get("user", \x7b\x7d).get("id", ""))`. -/
def extractUserId (tok : TokenPayload) : String :=
  tok.user_id.getD ""

/-- An error raised by `authenticate`: the `AuthenticationError` of the spec
(the OAuth error raised by `fetch_token` on rejected credentials). -/
inductive AuthError where
  | authenticationError : AuthError
deriving DecidableEq

/-- `WhoopClient.authenticate`: run `fetch_token`; on failure the raised error
propagates and the state is unchanged; on success the token is stored and,
only when `self.user_id` is still falsy (the empty string), `user_id` is set
from the payload's `user.id` (defaulting to `""` when that field is missing).
Returns the state after the call plus the raised error, if any. -/
def authenticate (st : ClientState) (resp : AuthResult) : ClientState × Option AuthError :=
  match resp with
  | .failure => (st, some AuthError.authenticationError)
  | .success tok =>
    if st.user_id = "" then
      ({ token := some tok, user_id := extractUserId tok }, none)
    else
      ({ token := some tok, user_id := st.user_id }, none)

/-- `WhoopClient.is_authenticated`: `self.session.token is not None`. -/
def is_authenticated (st : ClientState) : Bool :=
  st.token.isSome

/-- A Python `datetime` at the granularity the library manipulates: the
proleptic-Gregorian ordinal of its date (`date.toordinal()`) and the
microsecond of the day. Python datetimes compare lexicographically on this
pair, and `timedelta(days = n)` arithmetic acts on the ordinal alone. -/
structure PyDateTime where
  ordinal : Int
  usec : Nat
deriving DecidableEq

/-- `time.max` as a microsecond of the day: 23:59:59.999999. -/
def timeMaxUsec : Nat := 86399999999

/-- `datetime.combine(d, t)`: the date of `d` with time of day `t`. -/
def combine (d : PyDateTime) (t : Nat) : PyDateTime :=
  ⟨d.ordinal, t⟩

/-- `d - timedelta(days = n)`. -/
def subDays (d : PyDateTime) (n : Int) : PyDateTime :=
  ⟨d.ordinal - n, d.usec⟩

/-- Python `a > b` on datetimes: lexicographic on (date, time of day). -/
def dtGt (a b : PyDateTime) : Bool :=
  decide (b.ordinal < a.ordinal ∨ (b.ordinal = a.ordinal ∧ b.usec < a.usec))

/-- Gregorian leap year test, as in Python's `datetime` module. -/
def isLeap (y : Nat) : Bool :=
  y % 4 = 0 && (y % 100 ≠ 0 || y % 400 = 0)

/-- Number of days in month `m` of year `y`. -/
def daysInMonth (y m : Nat) : Nat :=
  if m = 2 then (if isLeap y then 29 else 28)
  else if m = 4 ∨ m = 6 ∨ m = 9 ∨ m = 11 then 30
  else 31

/-- Number of days in year `y` preceding the first of month `m`. -/
def daysBeforeMonth (y m : Nat) : Nat :=
  (List.range (m - 1)).foldl (fun a i => a + daysInMonth y (i + 1)) 0

/-- Number of days before January 1st of year `y`. -/
def daysBeforeYear (y : Nat) : Nat :=
  (y - 1) * 365 + (y - 1) / 4 - (y - 1) / 100 + (y - 1) / 400

/-- `date(y, m, d).toordinal()`. -/
def toordinal (y m d : Nat) : Nat :=
  daysBeforeYear y + daysBeforeMonth y m + d

/-- Largest month `m ≤ fuel` whose preceding days fit into `r` days since the
start of year `y`; scanning replaces CPython's closed-form estimate. -/
def monthOf (y r : Nat) : Nat → Nat
  | 0 => 1
  | m + 1 => if daysBeforeMonth y (m + 1) ≤ r then m + 1 else monthOf y r m

/-- `date.fromordinal`: invert `toordinal` into (year, month, day), following
CPython's 400/100/4/1-year block decomposition. -/
def ord2ymd (n0 : Nat) : Nat × Nat × Nat :=
  let n := n0 - 1
  let n400 := n / 146097
  let r400 := n % 146097
  let n100 := r400 / 36524
  let r100 := r400 % 36524
  let n4 := r100 / 1461
  let r4 := r100 % 1461
  let n1 := r4 / 365
  let r1 := r4 % 365
  let year := n400 * 400 + n100 * 100 + n4 * 4 + n1 + 1
  if n1 = 4 ∨ n100 = 4 then (year - 1, 12, 31)
  else
    let m := monthOf year r1 12
    (year, m, r1 - daysBeforeMonth year m + 1)

/-- Zero-padded decimal rendering, width `w`. -/
def pad (w n : Nat) : String :=
  let s := toString n
  "".pushn '0' (w - s.length) ++ s

/-- `date.isoformat()`: `YYYY-MM-DD`. -/
def isoDate (o : Int) : String :=
  let ymd := ord2ymd o.toNat
  pad 4 ymd.1 ++ "-" ++ pad 2 ymd.2.1 ++ "-" ++ pad 2 ymd.2.2

/-- `HH:MM:SS` for a second of the day. -/
def hms (secs : Nat) : String :=
  pad 2 (secs / 3600) ++ ":" ++ pad 2 (secs % 3600 / 60) ++ ":" ++ pad 2 (secs % 60)

/-- `datetime.isoformat()` with the default `timespec`: seconds, plus a
6-digit fraction exactly when the microsecond field is non-zero. -/
def isoDateTime (dt : PyDateTime) : String :=
  isoDate dt.ordinal ++ "T" ++ hms (dt.usec / 1000000) ++
    (if dt.usec % 1000000 = 0 then "" else "." ++ pad 6 (dt.usec % 1000000))

/-- `datetime.isoformat(timespec="seconds")`: truncate to whole seconds. -/
def isoDateTimeSec (dt : PyDateTime) : String :=
  isoDate dt.ordinal ++ "T" ++ hms (dt.usec / 1000000)

/-- `WhoopClient._format_dates`. Date strings arrive already parsed by the
external `datetime.fromisoformat` (so an input carries both a date and a
possible time of day); `none` selects the `datetime.today()` defaults. The
end is the end date combined with `time.max`, the start is the start date
(defaulting to today minus 6 days) combined with `time.min`; if start > end a
`ValueError` is raised, else the pair
`(start.isoformat() + "Z", end.isoformat(timespec="seconds") + "Z")` is
returned. -/
def format_dates (today : PyDateTime) (start_date end_date : Option PyDateTime) :
    Except String (String × String) :=
  let endDT := combine (end_date.getD today) timeMaxUsec
  let startDT := combine (start_date.getD (subDays today 6)) 0
  if dtGt startDT endDT then
    .error ("Start datetime greater than end datetime: " ++ isoDateTime startDT ++
      " > " ++ isoDateTime endDT)
  else
    .ok (isoDateTime startDT ++ "Z", isoDateTimeSec endDT ++ "Z")

/-- `true` iff the call raised. -/
def isErr {ε β : Type} (e : Except ε β) : Bool :=
  match e with
  | .error _ => true
  | .ok _ => false

theorem length_traceFrom {α : Type} (front : List (PageBody α)) :
    ∀ tok : Option String, (traceFrom tok front).length = front.length := by
  induction front with
  | nil => intro tok; rfl
  | cons b rest ih => intro tok; simp [traceFrom, ih]

theorem continues_iff {α : Type} (b : PageBody α) :
    continues b = true ↔ ∃ s, b.next_token = .str s ∧ s ≠ "" := by
  cases hnt : b.next_token with
  | absent => simp [continues, hnt]
  | null => simp [continues, hnt]
  | str s => simp [continues, hnt]

/-- Consuming a prefix of pages that all continue leaves the loop running on
the remaining script with the accumulated records, cursor and request trace. -/
theorem pag_skip {α : Type} (front : List (PageBody α)) :
    ∀ (_ : ∀ b ∈ front, continues b = true) (extra : List (HttpResp α))
      (tok : Option String) (acc : List α) (reqs : List (Option String)),
    make_paginated_request (front.map HttpResp.ok ++ extra) tok acc reqs =
      make_paginated_request extra (tokAfter tok front) (acc ++ allRecords front)
        (reqs ++ traceFrom tok front) := by
  induction front with
  | nil =>
    intro _ extra tok acc reqs
    simp [tokAfter, traceFrom, allRecords]
  | cons b rest ih =>
    intro h extra tok acc reqs
    have hb : continues b = true := h b (List.mem_cons_self _ _)
    rcases (continues_iff b).mp hb with ⟨s, hnt, hs⟩
    simp only [List.map_cons, List.cons_append, List.append_eq,
      make_paginated_request, make_request, tokenValue, hnt, cursorOf, if_neg hs]
    rw [ih (fun x hx => h x (List.mem_cons_of_mem _ hx)) extra]
    simp [tokAfter, traceFrom, allRecords, pageTok, hnt, if_neg hs, List.append_assoc]

/-- A page whose `next_token` is `null` or empty ends the loop: the
accumulated records are returned and the rest of the script is never
requested. -/
theorem pag_stop_step {α : Type} (b : PageBody α) (hb : stopsLoop b = true)
    (extra : List (HttpResp α)) (tok : Option String) (acc : List α)
    (reqs : List (Option String)) :
    make_paginated_request (HttpResp.ok b :: extra) tok acc reqs =
      .done (acc ++ b.records) (reqs ++ [tok]) := by
  cases hnt : b.next_token with
  | absent => simp [stopsLoop, hnt] at hb
  | null => simp [make_paginated_request, make_request, tokenValue, hnt, cursorOf]
  | str s =>
    have hs : s = "" := by simpa [stopsLoop, hnt] using hb
    subst hs
    simp [make_paginated_request, make_request, tokenValue, hnt, cursorOf]

/-- A failing HTTP status ends the loop by a raised `HTTPError`: no records
are returned and the rest of the script is never requested. -/
theorem pag_err_step {α : Type} (s : Nat) (extra : List (HttpResp α))
    (tok : Option String) (acc : List α) (reqs : List (Option String)) :
    make_paginated_request (HttpResp.err s :: extra) tok acc reqs =
      .failed (.httpError s) (reqs ++ [tok]) := by
  simp [make_paginated_request, make_request]

/-- A page whose body lacks the `next_token` key ends the loop by a raised
`KeyError`: no records are returned. -/
theorem pag_absent_step {α : Type} (b : PageBody α) (hb : b.next_token = .absent)
    (extra : List (HttpResp α)) (tok : Option String) (acc : List α)
    (reqs : List (Option String)) :
    make_paginated_request (HttpResp.ok b :: extra) tok acc reqs =
      .failed .keyError (reqs ++ [tok]) := by
  simp [make_paginated_request, make_request, tokenValue, hb]

theorem allRecords_append {α : Type} (l1 l2 : List (PageBody α)) :
    allRecords (l1 ++ l2) = allRecords l1 ++ allRecords l2 := by
  induction l1 with
  | nil => simp [allRecords]
  | cons b rest ih => simp [allRecords, ih]

/-- Claim C1: for every finite sequence of page responses (pages carrying a
non-empty cursor followed by a final page with a null/empty cursor),
`_make_paginated_request` returns exactly the concatenation of each page's
`records` array in fetch order — no sorting, no deduplication — and issues
exactly one request per page consumed, each later request carrying the
previous page's cursor as `nextToken`. -/
theorem pagination_concatenates_pages {α : Type} (front : List (PageBody α))
    (last : PageBody α) (hc : ∀ b ∈ front, continues b = true)
    (ht : stopsLoop last = true) :
    fetchAll ((front ++ [last]).map HttpResp.ok) =
        .done (allRecords (front ++ [last]))
          (traceFrom none front ++ [tokAfter none front]) ∧
      (traceFrom none front ++ [tokAfter none front]).length =
        (front ++ [last]).length := by
  constructor
  · rw [fetchAll, List.map_append, pag_skip front hc]
    simp only [List.map_cons, List.map_nil]
    rw [pag_stop_step last ht]
    simp [allRecords_append, allRecords]
  · simp [length_traceFrom]

/-- Claim C1 witness: for `P1 = {records: [a, b], next_token: "t1"}` then
`P2 = {records: [c], next_token: null}`, the result is `[a, b, c]` from
exactly 2 requests, the second carrying `nextToken = t1`. -/
theorem pagination_concatenates_pages_witness :
    fetchAll [HttpResp.ok (⟨["a", "b"], .str "t1"⟩ : PageBody String),
        HttpResp.ok ⟨["c"], .null⟩] =
      PagOutcome.done ["a", "b", "c"] [none, some "t1"] := by
  have h := (pagination_concatenates_pages (α := String) [⟨["a", "b"], .str "t1"⟩]
    ⟨["c"], .null⟩ (by decide) (by decide)).1
  simpa [allRecords, traceFrom, tokAfter, pageTok] using h

/-- Claim C2 counterexample: on a page response from which the `next_token`
key is absent, the loop does not terminate with the accumulated records — the
dict subscript `response["next_token"]` raises `KeyError`, so the call fails
instead of returning the accumulated sequence. -/
theorem absent_token_counterexample :
    fetchAll [HttpResp.ok (⟨["a"], .absent⟩ : PageBody String)] =
        PagOutcome.failed ReqError.keyError [none] ∧
      fetchAll [HttpResp.ok (⟨["a"], .absent⟩ : PageBody String)] ≠
        PagOutcome.done ["a"] [none] := by
  decide

/-- Claim C2 (amended): the loop continues iff the response's `next_token` is
present and a non-empty string, installing it as the `nextToken` parameter;
it terminates returning the accumulated records when `next_token` is present
but null or empty (so a single-page endpoint answering `next_token: null`
costs exactly 1 request); when the key is absent the loop raises `KeyError`
rather than terminating normally. -/
theorem next_token_loop_control {α : Type} (b : PageBody α)
    (extra : List (HttpResp α)) (tok : Option String) (acc : List α)
    (reqs : List (Option String)) :
    (∀ s : String, b.next_token = .str s → s ≠ "" →
        make_paginated_request (HttpResp.ok b :: extra) tok acc reqs =
          make_paginated_request extra (some s) (acc ++ b.records) (reqs ++ [tok])) ∧
      (stopsLoop b = true →
        make_paginated_request (HttpResp.ok b :: extra) tok acc reqs =
          .done (acc ++ b.records) (reqs ++ [tok])) ∧
      (b.next_token = .absent →
        make_paginated_request (HttpResp.ok b :: extra) tok acc reqs =
          .failed .keyError (reqs ++ [tok])) ∧
      (b.next_token = .null →
        fetchAll [HttpResp.ok b] = .done b.records [none]) := by
  refine ⟨?_, ?_, ?_, ?_⟩
  · intro s hnt hs
    simp [make_paginated_request, make_request, tokenValue, hnt, cursorOf, if_neg hs]
  · intro h
    exact pag_stop_step b h extra tok acc reqs
  · intro h
    exact pag_absent_step b h extra tok acc reqs
  · intro h
    have hstep := pag_stop_step b (by simp [stopsLoop, h]) [] none [] []
    simpa [fetchAll] using hstep

/-- Claim C2 witness: the three loop-control behaviours at concrete pages —
continue on `next_token = "t"`, return on `next_token = null` after exactly
one request, and `KeyError` on an absent key. -/
theorem next_token_loop_control_witness :
    make_paginated_request [HttpResp.ok (⟨["a"], .str "t"⟩ : PageBody String)]
        none [] [] = make_paginated_request [] (some "t") ["a"] [none] ∧
      fetchAll [HttpResp.ok (⟨["d"], .null⟩ : PageBody String)] =
        PagOutcome.done ["d"] [none] ∧
      make_paginated_request [HttpResp.ok (⟨["c"], .absent⟩ : PageBody String)]
        none [] [] = PagOutcome.failed .keyError [none] := by
  refine ⟨?_, ?_, ?_⟩
  · simpa using
      (next_token_loop_control (⟨["a"], .str "t"⟩ : PageBody String) [] none [] []).1
        "t" rfl (by decide)
  · exact (next_token_loop_control (⟨["d"], .null⟩ : PageBody String) [] none [] []).2.2.2 rfl
  · simpa using
      (next_token_loop_control (⟨["c"], .absent⟩ : PageBody String) [] none [] []).2.2.1 rfl

/-- Claim C3: a failing HTTP status mid-pagination surfaces as a typed error
carrying that status; the failing page costs exactly one request (one request
per page overall, no retry), the rest of the script is never consumed, and no
partial sequence of already-accumulated records is returned. -/
theorem http_error_propagates {α : Type} (front : List (PageBody α))
    (hc : ∀ b ∈ front, continues b = true) (s : Nat) (extra : List (HttpResp α)) :
    fetchAll (front.map HttpResp.ok ++ HttpResp.err s :: extra) =
        .failed (.httpError s) (traceFrom none front ++ [tokAfter none front]) ∧
      (traceFrom none front ++ [tokAfter none front]).length = front.length + 1 := by
  constructor
  · rw [fetchAll, pag_skip front hc, pag_err_step]
    simp
  · simp [length_traceFrom]

/-- Claim C3 witness: a 401 on the second page yields `HttpError 401` after
exactly 2 requests, with the first page's records `[a, b]` not returned. -/
theorem http_error_propagates_witness :
    fetchAll [HttpResp.ok (⟨["a", "b"], .str "t1"⟩ : PageBody String),
        HttpResp.err 401] =
      PagOutcome.failed (.httpError 401) [none, some "t1"] := by
  have h := (http_error_propagates (α := String) [⟨["a", "b"], .str "t1"⟩]
    (by decide) 401 []).1
  simpa [traceFrom, tokAfter, pageTok] using h

/-- Claim C4: no maximum page count is enforced — after consuming any number
of pages that all carry a non-empty cursor the loop is still running (so an
infinite stream of such pages never terminates), and as soon as the first
page with a null/empty cursor arrives the loop terminates there, regardless
of how many pages the server could still serve. -/
theorem pagination_no_page_cap {α : Type} (front : List (PageBody α))
    (hc : ∀ b ∈ front, continues b = true) :
    fetchAll (front.map HttpResp.ok) =
        .running (allRecords front) (tokAfter none front) (traceFrom none front) ∧
      ∀ (last : PageBody α) (extra : List (HttpResp α)), stopsLoop last = true →
        fetchAll ((front ++ [last]).map HttpResp.ok ++ extra) =
          .done (allRecords front ++ last.records)
            (traceFrom none front ++ [tokAfter none front]) := by
  constructor
  · have h := pag_skip front hc [] none [] []
    rw [List.append_nil] at h
    simpa [fetchAll, make_paginated_request] using h
  · intro last extra hlast
    rw [fetchAll, List.map_append, List.append_assoc, pag_skip front hc]
    simp only [List.map_cons, List.map_nil, List.singleton_append]
    rw [pag_stop_step last hlast]
    simp

/-- Claim C4 witness: one continuing page leaves the loop still awaiting the
next page; putting a terminating page after it stops the run exactly there,
with a further queued page never requested. -/
theorem pagination_no_page_cap_witness :
    fetchAll [HttpResp.ok (⟨["a"], .str "t1"⟩ : PageBody String)] =
        PagOutcome.running ["a"] (some "t1") [none] ∧
      fetchAll [HttpResp.ok (⟨["a"], .str "t1"⟩ : PageBody String),
          HttpResp.ok ⟨["b"], .null⟩, HttpResp.ok ⟨["z"], .str "zz"⟩] =
        PagOutcome.done ["a", "b"] [none, some "t1"] := by
  constructor
  · have h1 := (pagination_no_page_cap (α := String) [⟨["a"], .str "t1"⟩] (by decide)).1
    simpa [allRecords, traceFrom, tokAfter, pageTok] using h1
  · have h2 := (pagination_no_page_cap (α := String) [⟨["a"], .str "t1"⟩] (by decide)).2
      ⟨["b"], .null⟩ [HttpResp.ok ⟨["z"], .str "zz"⟩] (by decide)
    simpa [allRecords, traceFrom, tokAfter, pageTok] using h2

/-- Claim C7: once the session's `user_id` is a non-empty string, no later
`authenticate` call — succeeding or failing, even with a token response
carrying a different `user.id` — ever changes it. -/
theorem user_id_stable (st : ClientState) (resp : AuthResult)
    (h : st.user_id ≠ "") :
    (authenticate st resp).1.user_id = st.user_id := by
  cases resp with
  | failure => rfl
  | success tok => simp [authenticate, if_neg h]

/-- Claim C7 witness: a session resolved to user `10129` keeps that id even
after re-authenticating against a token response claiming user `999`. -/
theorem user_id_stable_witness :
    (authenticate ⟨some ⟨some "10129"⟩, "10129"⟩
      (.success ⟨some "999"⟩)).1.user_id = "10129" :=
  user_id_stable ⟨some ⟨some "10129"⟩, "10129"⟩ (.success ⟨some "999"⟩) (by decide)

/-- Claim C8: from an unauthenticated session, a successful token response
whose payload carries a non-empty `user.id` leaves `is_authenticated` true and
`user_id` equal to that (non-empty) id, with no error raised. -/
theorem authenticate_success_resolves_user (st : ClientState) (tok : TokenPayload)
    (uid : String) (hfresh : st.user_id = "") (hid : tok.user_id = some uid)
    (huid : uid ≠ "") :
    is_authenticated (authenticate st (.success tok)).1 = true ∧
      (authenticate st (.success tok)).1.user_id = uid ∧
      (authenticate st (.success tok)).1.user_id ≠ "" ∧
      (authenticate st (.success tok)).2 = none := by
  refine ⟨?_, ?_, ?_, ?_⟩ <;>
    simp [authenticate, hfresh, is_authenticated, extractUserId, hid, huid]

/-- Claim C8 witness: authenticating a fresh client against a payload with
`user.id = 10129` yields an authenticated session owned by `"10129"`. -/
theorem authenticate_success_resolves_user_witness :
    is_authenticated (authenticate ⟨none, ""⟩ (.success ⟨some "10129"⟩)).1 = true ∧
      (authenticate ⟨none, ""⟩ (.success ⟨some "10129"⟩)).1.user_id = "10129" ∧
      (authenticate ⟨none, ""⟩ (.success ⟨some "10129"⟩)).1.user_id ≠ "" ∧
      (authenticate ⟨none, ""⟩ (.success ⟨some "10129"⟩)).2 = none :=
  authenticate_success_resolves_user ⟨none, ""⟩ ⟨some "10129"⟩ "10129" rfl rfl
    (by decide)

/-- Claim C9 counterexample: a successful token response whose payload lacks
`user.id` does not make `authenticate` fail — no error is raised, the token is
stored (`is_authenticated` becomes true) and `user_id` is silently set to the
empty string via the `.get(..., "")` defaults. -/
theorem malformed_payload_counterexample :
    (authenticate ⟨none, ""⟩ (AuthResult.success ⟨none⟩)).2 = none ∧
      is_authenticated (authenticate ⟨none, ""⟩ (AuthResult.success ⟨none⟩)).1 = true ∧
      (authenticate ⟨none, ""⟩ (AuthResult.success ⟨none⟩)).1.user_id = "" := by
  decide

/-- Claim C9 (amended): `authenticate` raises `AuthenticationError` exactly
when the authorization endpoint rejects the credentials, leaving the session
state unchanged (so an unauthenticated session stays unauthenticated); a
successful response whose payload lacks `user.id` is *not* rejected: the
token is stored and `user_id` is set to the empty string. -/
theorem authenticate_failure_behaviour (st : ClientState) :
    authenticate st .failure = (st, some .authenticationError) ∧
      is_authenticated (authenticate st .failure).1 = is_authenticated st ∧
      (st.token = none → is_authenticated (authenticate st .failure).1 = false) ∧
      ∀ tok : TokenPayload, tok.user_id = none → st.user_id = "" →
        authenticate st (.success tok) = (⟨some tok, ""⟩, none) := by
  refine ⟨rfl, rfl, ?_, ?_⟩
  · intro h
    simp [authenticate, is_authenticated, h]
  · intro tok ht hs
    simp [authenticate, hs, extractUserId, ht]

/-- Claim C9 witness: concrete rejected-credentials call (state unchanged,
error raised, still unauthenticated) and concrete malformed-payload call
(accepted with empty user id). -/
theorem authenticate_failure_behaviour_witness :
    authenticate ⟨none, ""⟩ .failure = (⟨none, ""⟩, some .authenticationError) ∧
      is_authenticated (authenticate ⟨none, ""⟩ .failure).1 = false ∧
      authenticate ⟨none, ""⟩ (.success ⟨none⟩) = (⟨some ⟨none⟩, ""⟩, none) := by
  refine ⟨(authenticate_failure_behaviour ⟨none, ""⟩).1, ?_, ?_⟩
  · exact (authenticate_failure_behaviour ⟨none, ""⟩).2.2.1 rfl
  · exact (authenticate_failure_behaviour ⟨none, ""⟩).2.2.2 ⟨none⟩ rfl rfl

theorem isoDateTime_zero (o : Int) :
    isoDateTime ⟨o, 0⟩ = isoDate o ++ "T" ++ "00:00:00" := by
  simp only [isoDateTime, Nat.zero_div, Nat.zero_mod]
  rw [show hms 0 = "00:00:00" from rfl]
  simp only [if_true]
  rw [String.append_empty]

theorem isoDateTimeSec_max (o : Int) :
    isoDateTimeSec ⟨o, timeMaxUsec⟩ = isoDate o ++ "T" ++ "23:59:59" := by
  simp only [isoDateTimeSec, timeMaxUsec]
  rw [show (86399999999 : Nat) / 1000000 = 86399 from by norm_num,
    show hms 86399 = "23:59:59" from rfl]

/-- Claim C5: with both arguments `None`, `_format_dates` succeeds, the start
is the date exactly 6 days before the end date at wall-clock 00:00:00, the
end is today's date at 23:59:59 rendered at second precision (the `.999999`
of `time.max` is truncated), and both strings are the unconverted wall-clock
value with a literal "Z" appended. -/
theorem default_range_six_days (today : PyDateTime) :
    format_dates today none none =
      .ok (isoDate (today.ordinal - 6) ++ "T" ++ "00:00:00" ++ "Z",
           isoDate today.ordinal ++ "T" ++ "23:59:59" ++ "Z") := by
  have hcond : dtGt (combine (subDays today 6) 0) (combine today timeMaxUsec) = false := by
    rw [dtGt, decide_eq_false_iff_not]
    simp only [combine, subDays, timeMaxUsec]
    omega
  simp only [format_dates, Option.getD_none, hcond, Bool.false_eq_true, if_false]
  simp only [combine, subDays]
  rw [isoDateTime_zero, isoDateTimeSec_max]

/-- Claim C6: `_format_dates` raises iff the resolved start datetime (start
date at 00:00:00) strictly exceeds the resolved end datetime (end date at
23:59:59.999999), which happens iff the start *date* is strictly after the
end *date*; in particular 2024-01-10 → 2024-01-01 fails while an equal start
and end date succeeds. -/
theorem invalid_range_iff (today : PyDateTime) (sd ed : Option PyDateTime) :
    (isErr (format_dates today sd ed) = true ↔
        dtGt (combine (sd.getD (subDays today 6)) 0)
          (combine (ed.getD today) timeMaxUsec) = true) ∧
      (isErr (format_dates today sd ed) = true ↔
        (ed.getD today).ordinal < (sd.getD (subDays today 6)).ordinal) ∧
      isErr (format_dates ⟨0, 0⟩ (some ⟨((toordinal 2024 1 10 : Nat) : Int), 0⟩)
        (some ⟨((toordinal 2024 1 1 : Nat) : Int), 0⟩)) = true ∧
      isErr (format_dates ⟨0, 0⟩ (some ⟨((toordinal 2024 1 10 : Nat) : Int), 0⟩)
        (some ⟨((toordinal 2024 1 10 : Nat) : Int), 0⟩)) = false := by
  have hgt : ∀ a b : PyDateTime,
      dtGt (combine a 0) (combine b timeMaxUsec) = true ↔ b.ordinal < a.ordinal := by
    intro a b
    rw [dtGt, decide_eq_true_eq]
    simp only [combine, timeMaxUsec]
    omega
  have hmain : isErr (format_dates today sd ed) = true ↔
      dtGt (combine (sd.getD (subDays today 6)) 0)
        (combine (ed.getD today) timeMaxUsec) = true := by
    by_cases h : dtGt (combine (sd.getD (subDays today 6)) 0)
        (combine (ed.getD today) timeMaxUsec) = true
    · simp [format_dates, h, isErr]
    · simp [format_dates, h, isErr]
  refine ⟨hmain, hmain.trans (hgt _ _), by decide, by decide⟩

/-- Claim C10: any time-of-day on a parsed `start_date` or `end_date` input is
discarded — `datetime.combine` keeps only the date — so the returned range
always spans whole days, 00:00:00 of the start date through 23:59:59 of the
end date, whatever microsecond-of-day the inputs carried. -/
theorem time_component_discarded (today : PyDateTime) (so eo : Int) (su eu : Nat)
    (h : ¬ eo < so) :
    format_dates today (some ⟨so, su⟩) (some ⟨eo, eu⟩) =
      .ok (isoDate so ++ "T" ++ "00:00:00" ++ "Z",
           isoDate eo ++ "T" ++ "23:59:59" ++ "Z") := by
  have hcond : dtGt (combine ⟨so, su⟩ 0) (combine ⟨eo, eu⟩ timeMaxUsec) = false := by
    rw [dtGt, decide_eq_false_iff_not]
    simp only [combine, timeMaxUsec]
    omega
  simp only [format_dates, Option.getD_some, hcond, Bool.false_eq_true, if_false]
  simp only [combine]
  rw [isoDateTime_zero, isoDateTimeSec_max]

/-- Claim C10 witness: a start of 2024-01-05 01:02:03 and an end of
2024-01-08 00:00:00.000999 normalize to the whole-day range
2024-01-05T00:00:00Z – 2024-01-08T23:59:59Z. -/
theorem time_component_discarded_witness :
    format_dates ⟨0, 0⟩ (some ⟨((toordinal 2024 1 5 : Nat) : Int), 3723000000⟩)
        (some ⟨((toordinal 2024 1 8 : Nat) : Int), 999⟩) =
      .ok ("2024-01-05T00:00:00Z", "2024-01-08T23:59:59Z") := by
  rw [time_component_discarded ⟨0, 0⟩ ((toordinal 2024 1 5 : Nat) : Int)
    ((toordinal 2024 1 8 : Nat) : Int) 3723000000 999 (by decide)]
  rfl

end Whoop
